import Mathlib

/-!
Verification of the dtcc-builder geometry pipeline (Python sources under
`src/dtcc_builder` and `pybuilder/pybuilder`) against its natural-language
specification.  The Python modules are shallowly embedded: pure fragments
become Lean functions over `ℚ`; in-place mutation of the `City` object is
modelled by explicit state passing (the function's result is the state of
the mutated input object, since the Python functions mutate in place and
return the same object); external collaborators (the C++ `_dtcc_builder`
bindings, `dtcc_model`, file I/O) are taken as explicit function arguments
or symbolic terms recording their call arguments.
-/

/-- A 3D point (x, y, z), machine float64 modelled as ℚ. -/
structure Point3 where
  x : ℚ
  y : ℚ
  z : ℚ
deriving DecidableEq

/-- 2D axis-aligned bounding box, as in `dtcc_model.Bounds`. -/
structure Bounds where
  xmin : ℚ
  ymin : ℚ
  xmax : ℚ
  ymax : ℚ
deriving DecidableEq

/-- A building footprint polygon.  The pipeline stages embedded here consult
the footprint only through its centroid (`building.footprint.centroid`,
computed by the external shapely library), so the polygon is represented
abstractly by that centroid. -/
structure Footprint where
  centroidX : ℚ
  centroidY : ℚ
deriving DecidableEq

/-- A building of `dtcc_model.City`: identifier, footprint, height,
ground level, and the roof points assigned by building-point assignment. -/
structure Building where
  uuid : String
  footprint : Footprint
  height : ℚ
  ground_level : ℚ
  roofpoints : List Point3
deriving DecidableEq

/-- Modelled from the spec: `dtcc_model.Raster` (not under src/) is a regular
grid of float64 samples supporting bilinear evaluation at any (x, y); it is
represented by its stored samples (row-major, used only for their mean) and
its sampling function `get_value`. -/
structure Raster where
  data : List ℚ
  get_value : ℚ → ℚ → ℚ

/-- A `dtcc_model.City`: buildings plus domain bounds, origin, and the
terrain raster installed by DEM construction. -/
structure City where
  buildings : List Building
  terrain : Raster
  bounds : Bounds
  origin : ℚ × ℚ

/-- A `dtcc_model.PointCloud`: points with a parallel classification array
(empty when the source data has no classification). -/
structure PointCloud where
  points : List Point3
  classification : List ℕ
deriving DecidableEq

/-- The flat parameter mapping used by `builders.py`, as a typed record
holding the recognized keys that the embedded stages read. -/
structure Params where
  auto_domain : Bool
  domain_margin : ℚ
  x0 : ℚ
  y0 : ℚ
  x_min : ℚ
  y_min : ℚ
  x_max : ℚ
  y_max : ℚ
  elevation_model_resolution : ℚ
  elevation_model_window_size : ℚ
  ground_margin : ℚ
  outlier_margin : ℚ
  roof_outlier_margin : ℚ
  outlier_neighbors : ℕ
  ransac_outlier_remover : Bool
  ransac_outlier_margin : ℚ
  ransac_iterations : ℕ
  min_building_height : ℚ
  roof_percentile : ℚ
  min_building_distance : ℚ
  min_vertex_distance : ℚ
  mesh_resolution : ℚ
  domain_height : ℚ
  smoothing_max_iterations : ℕ
  smoothing_relative_tolerance : ℚ

/-- Insert a rational into an already sorted list (ascending). -/
def insertSorted (x : ℚ) : List ℚ → List ℚ
  | [] => [x]
  | y :: ys => if x ≤ y then x :: y :: ys else y :: insertSorted x ys

/-- Insertion sort on rationals, used to model the sorting step of
`numpy.percentile`. -/
def sortQ : List ℚ → List ℚ
  | [] => []
  | x :: xs => insertSorted x (sortQ xs)

/-- `numpy.percentile(xs, q)` with the default linear interpolation:
on the sorted values `v₀ ≤ … ≤ v_{n−1}` the result is the value at
fractional position `q/100 · (n−1)`. -/
def percentile (xs : List ℚ) (q : ℚ) : ℚ :=
  let ys := sortQ xs
  if ys.length = 0 then 0
  else
    let pos : ℚ := q / 100 * ((ys.length : ℚ) - 1)
    let i : ℕ := pos.floor.toNat
    let frac : ℚ := pos - (pos.floor : ℚ)
    ys.getD i 0 + frac * (ys.getD (i + 1) (ys.getD i 0) - ys.getD i 0)

/-- The body of the per-building loop of
`builders.compute_building_heights` (builders.py lines 119–149): a building
with no roof points gets `height = min_building_height` (the loop `continue`s
without touching `ground_level`); otherwise a zero `ground_level` is replaced
by the terrain value at the footprint centroid, `roof_top` is the
`roof_percentile·100` percentile of the roof z-values, and the height
`roof_top − ground_level` is raised to `min_building_height` if smaller. -/
def infer_height (terrain : Raster) (p : Params) (building : Building) : Building :=
  if building.roofpoints.length = 0 then
    { building with height := p.min_building_height }
  else
    let building :=
      if building.ground_level = 0 then
        { building with ground_level :=
            terrain.get_value building.footprint.centroidX building.footprint.centroidY }
      else building
    let z_values := building.roofpoints.map Point3.z
    let roof_top := percentile z_values (p.roof_percentile * 100)
    let height := roof_top - building.ground_level
    let height := if height < p.min_building_height then p.min_building_height else height
    { building with height := height }

/-- `builders.compute_building_heights(city, parameters)`: mutates every
building of the city in place and returns the same city object; modelled by
mapping `infer_height` over the buildings. -/
def compute_building_heights (city : City) (p : Params) : City :=
  { city with buildings := city.buildings.map (infer_height city.terrain p) }

/-- The type of the external C++ binding `_dtcc_builder.extractRoofPoints`
(building-point assignment, not under src/): given the city, the point cloud
and the six numeric parameters of the call in
`builders.compute_building_points`, it yields per building the pair
(roof points, ground points).  It is kept abstract: the embedded stages are
parametrized over it. -/
def ExtractFn : Type :=
  City → PointCloud → ℚ → ℚ → ℚ → ℕ → ℚ → ℕ → List (List Point3 × List Point3)

/-- The exact call `_dtcc_builder.extractRoofPoints(builder_city,
builder_pointcloud, ground_margin, outlier_margin, roof_outlier_margin,
outlier_neighbors, …)` of `builders.compute_building_points` (lines 78–87):
the two RANSAC arguments are passed as 0 when `ransac_outlier_remover` is
disabled. -/
def assigned_points (extract : ExtractFn) (city : City) (pointcloud : PointCloud)
    (p : Params) : List (List Point3 × List Point3) :=
  extract city pointcloud p.ground_margin p.outlier_margin p.roof_outlier_margin
    p.outlier_neighbors
    (if p.ransac_outlier_remover then p.ransac_outlier_margin else 0)
    (if p.ransac_outlier_remover then p.ransac_iterations else 0)

/-- The body of the `for city_building, builder_buildings in zip(...)` loop
of `builders.compute_building_points` (lines 92–101): the building's
roofpoints are overwritten with the assigned roof points, and when the
assigned ground-point list is non-empty its 50th z-percentile (the median)
overwrites `ground_level`. -/
def assign_building (b : Building) (a : List Point3 × List Point3) : Building :=
  let b := { b with roofpoints := a.1 }
  if 0 < a.2.length then
    { b with ground_level := percentile (a.2.map Point3.z) 50 }
  else b

/-- The `zip` loop of `builders.compute_building_points`: Python's `zip`
stops at the shorter sequence, and buildings beyond it keep their previous
state (the loop mutates the list elements in place). -/
def assign_buildings : List Building → List (List Point3 × List Point3) → List Building
  | [], _ => []
  | b :: bs, [] => b :: bs
  | b :: bs, a :: rest => assign_building b a :: assign_buildings bs rest

/-- `builders.compute_building_points(city, pointcloud, parameters)`:
calls the external `extractRoofPoints` and copies its per-building roof and
ground points back into the city, mutating the city in place and returning
the same object. -/
def compute_building_points (extract : ExtractFn) (city : City)
    (pointcloud : PointCloud) (p : Params) : City :=
  { city with buildings :=
      assign_buildings city.buildings (assigned_points extract city pointcloud p) }

/-- Modelled from the spec: `dtcc_model.PointCloud.used_classifications`
(not under src/); per the spec's reader contract, classification values are
those recorded in the cloud's classification array, so the used
classifications are the distinct values present in that array. -/
def used_classifications (pc : PointCloud) : List ℕ :=
  pc.classification.dedup

/-- The ground-point extraction of `builders.build_dem` (lines 171–177):
when the classification array matches the points in length and class 2 is
among the used classifications, keep exactly the points classified 2 or 9
(`np.isin(classification, [2, 9])`); otherwise use all points. -/
def build_dem_ground_points (pc : PointCloud) : List Point3 :=
  if pc.classification.length = pc.points.length ∧ 2 ∈ used_classifications pc then
    ((pc.points.zip pc.classification).filter (fun q => q.2 = 2 ∨ q.2 = 9)).map Prod.fst
  else pc.points

/-- The DEM produced by `builders.build_dem`, represented symbolically by the
arguments of the external `pypoints2grid.points2grid` call (the gridding
itself, the rasterio georeferencing and `fill_holes` are external
collaborators): the selected ground points, the cell size, the bounds and the
window size. -/
structure DemResult where
  ground_points : List Point3
  cell_size : ℚ
  dem_bounds : Bounds
  window_size : ℚ

/-- `builders.build_dem(pointcloud, bounds, parameters)`. -/
def build_dem (pc : PointCloud) (bounds : Bounds) (p : Params) : DemResult :=
  { ground_points := build_dem_ground_points pc
    cell_size := p.elevation_model_resolution
    dem_bounds := bounds
    window_size := p.elevation_model_window_size }

/-- `builders.build_city(city, point_cloud, bounds, parameters)` (builders.py
lines 201–234): removes global outliers from the point cloud, installs the
computed DEM as the city's terrain (mutating the city in place, as the
source's FIXME notes), then runs building-point assignment and height
inference on the same object.  The external pieces are parameters:
`remove_global_outliers` is the external `dtcc_model.PointCloud` method, and
`dem_raster` is the external gridding applied inside `build_dem`
(`pypoints2grid.points2grid`, the rasterio georeferencing and `fill_holes`)
that turns the recorded call into the terrain Raster. -/
def build_city (remove_global_outliers : PointCloud → ℚ → PointCloud)
    (dem_raster : DemResult → Raster) (extract : ExtractFn)
    (city : City) (point_cloud : PointCloud) (bounds : Bounds) (p : Params) : City :=
  let point_cloud := remove_global_outliers point_cloud p.outlier_margin
  let city := { city with terrain := dem_raster (build_dem point_cloud bounds p) }
  let city := compute_building_points extract city point_cloud p
  compute_building_heights city p

/-- Modelled from the spec: `dtcc_io.city.building_bounds(path, margin)`
(not under src/) reads the footprints and returns their bounding box grown by
the margin ("Extra margin (metres) around footprint bounds"); the raw
footprint bounding box is taken as an input. -/
def building_bounds (raw : Bounds) (margin : ℚ) : Bounds :=
  { xmin := raw.xmin - margin
    ymin := raw.ymin - margin
    xmax := raw.xmax + margin
    ymax := raw.ymax + margin }

/-- Modelled from the spec: `dtcc_io.bounds.bounds_intersect` (not under
src/) returns the intersection of two bounding boxes. -/
def bounds_intersect (a b : Bounds) : Bounds :=
  { xmin := max a.xmin b.xmin
    ymin := max a.ymin b.ymin
    xmax := min a.xmax b.xmax
    ymax := min a.ymax b.ymax }

/-- `builders.compute_domain_bounds(buildings_path, pointcloud_path,
parameters)` (lines 22–64).  The two paths serve only to reach the external
readers, so the raw footprint bounding box and the point-cloud bounding box
are taken as inputs.  In the automatic branch the source also writes the
computed origin and extent back into the parameter dictionary; the updated
parameters are returned as the second component. -/
def compute_domain_bounds (footprint_raw : Bounds) (pointcloud_bounds : Bounds)
    (p : Params) : ((ℚ × ℚ) × Bounds) × Params :=
  if p.auto_domain then
    let footprint_bounds := building_bounds footprint_raw p.domain_margin
    let bounds := bounds_intersect footprint_bounds pointcloud_bounds
    let origin := (bounds.xmin, bounds.ymin)
    let p := { p with
      x0 := origin.1
      y0 := origin.2
      x_min := 0
      y_min := 0
      x_max := bounds.xmax - bounds.xmin
      y_max := bounds.ymax - bounds.ymin }
    ((origin, bounds), p)
  else
    let origin := (p.x0, p.y0)
    let bounds : Bounds :=
      { xmin := p.x0 + p.x_min
        ymin := p.y0 + p.y_min
        xmax := p.x0 + p.x_max
        ymax := p.y0 + p.y_max }
    ((origin, bounds), p)

/-- Result of `Meshing.write_surface`: either the early `return False` for an
unsupported format, or the external writer call
`_pybuilder.WriteSurface3D(surface, file_name, format, y_up)` recorded with
its arguments. -/
inductive WriteSurfaceResult where
  | notSupported
  | written (surface : String) (file_name : String) (format : String) (y_up : Bool)
deriving DecidableEq

/-- `pybuilder.Meshing.write_surface(surface, file_name, format, y_up)`
(Meshing.py lines 66–79); the console message in the unsupported branch is
I/O and not modelled. -/
def write_surface (surface : String) (file_name : String) (format : String)
    (y_up : Option Bool) : WriteSurfaceResult :=
  let supported_formats := ["obj", "stl", "gltf"]
  let y_up_format := ["obj", "gltf"]
  if format ∉ supported_formats then
    .notSupported
  else
    let y_up :=
      match y_up with
      | some b => b
      | none => decide (format ∈ y_up_format)
    let format := if format = "gltf" then "gltf2" else format
    .written surface file_name format y_up

/-- `pybuilder.PointCloud.getLasBounds(las_path)` (identical in
`pybuilder/PointCloud.py` lines 14–20 and `pybuilder/pybuilder/PointCloud.py`
lines 24–30).  The filesystem test `os.path.isdir` and the external LAS
reader `_pybuilder.LASBounds` are taken as function arguments; the console
message printed before the `None` return is I/O and not modelled. -/
def getLasBounds (isdir : String → Bool) (lasBounds : String → Bounds)
    (las_path : String) : Option Bounds :=
  if ¬ isdir las_path then none
  else some (lasBounds las_path)

/-- A value of the flat Python parameter dictionary of `parameters.py`:
booleans, ints, floats and strings (paths are strings; the `Path`
constructor applied in `set_directories` does not change the path text). -/
inductive PValue where
  | vBool (b : Bool)
  | vInt (n : ℤ)
  | vFloat (q : ℚ)
  | vStr (s : String)
deriving DecidableEq

/-- The module-level `_parameters` dictionary of
`src/dtcc_builder/parameters.py` (lines 4–53), entry for entry in source
order. -/
def _parameters : List (String × PValue) :=
  [ ("model_name", .vStr "DTCC")
  , ("auto_domain", .vBool true)
  , ("generate_surface_mesh", .vBool true)
  , ("generate_volume_mesh", .vBool true)
  , ("write_json", .vBool true)
  , ("write_vtk", .vBool true)
  , ("write_stl", .vBool true)
  , ("write_obj", .vBool false)
  , ("write_protobuf", .vBool true)
  , ("debug", .vBool false)
  , ("ground_smoothing", .vInt 5)
  , ("domain_margin", .vFloat 10)
  , ("x0", .vFloat 0)
  , ("y0", .vFloat 0)
  , ("x_min", .vFloat 0)
  , ("y_min", .vFloat 0)
  , ("x_max", .vFloat 0)
  , ("y_max", .vFloat 0)
  , ("elevation_model_resolution", .vFloat 1)
  , ("min_building_distance", .vFloat 1)
  , ("min_building_height", .vFloat (5 / 2))
  , ("min_vertex_distance", .vFloat 1)
  , ("ground_margin", .vFloat 1)
  , ("mesh_resolution", .vFloat 10)
  , ("domain_height", .vFloat 100)
  , ("groun_percentile", .vFloat (1 / 2))
  , ("roof_percentile", .vFloat (9 / 10))
  , ("outlier_margin", .vFloat 2)
  , ("min_building_size", .vFloat 15)
  , ("uuid_field", .vStr "uuid")
  , ("height_field", .vStr "")
  , ("statistical_outlier_remover", .vBool true)
  , ("outlier_neighbors", .vInt 5)
  , ("roof_outlier_margin", .vFloat (3 / 2))
  , ("ransac_outlier_remover", .vBool true)
  , ("ransac_outlier_margin", .vFloat 3)
  , ("ransac_iterations", .vInt 250)
  , ("naive_vegitation_filter", .vBool true)
  , ("data_directory", .vStr "")
  , ("buildings_filename", .vStr "PropertyMap.shp")
  , ("pointcloud_directory", .vStr "")
  , ("output_directory", .vStr "") ]

/-- Python dictionary assignment `d[k] = v`: replace the value when the key
is present, append the pair otherwise. -/
def dict_set (d : List (String × PValue)) (k : String) (v : PValue) :
    List (String × PValue) :=
  if (d.lookup k).isSome then
    d.map (fun kv => if kv.1 = k then (k, v) else kv)
  else d ++ [(k, v)]

/-- Python dictionary access `d[k]` on a key known to be present (the
placeholder models the `KeyError` that a missing key would raise). -/
def dict_get (d : List (String × PValue)) (k : String) : PValue :=
  (d.lookup k).getD (.vStr "<KeyError>")

/-- Python `pathlib` path join `a / b`. -/
def path_join (a b : String) : String :=
  a ++ "/" ++ b

/-- Whether a `pathlib` path is absolute (POSIX). -/
def path_is_absolute (s : String) : Bool :=
  s.startsWith "/"

/-- `parameters.set_directories(p, project_path)` (parameters.py lines
81–97): fills the empty directory entries; the `Path(...)` wrappers keep the
path text unchanged and the `mkdir` call is a filesystem effect, both not
modelled. -/
def set_directories (p : List (String × PValue)) (project_path : String) :
    List (String × PValue) :=
  let p :=
    if dict_get p "data_directory" = .vStr "" then
      dict_set p "data_directory" (.vStr project_path)
    else p
  let p :=
    if dict_get p "output_directory" = .vStr "" then
      dict_set p "output_directory" (dict_get p "data_directory")
    else p
  let p :=
    if dict_get p "pointcloud_directory" = .vStr "" then
      dict_set p "pointcloud_directory" (dict_get p "data_directory")
    else
      match dict_get p "pointcloud_directory" with
      | .vStr s =>
        if ¬ path_is_absolute s then
          dict_set p "pointcloud_directory"
            (.vStr (path_join
              (match dict_get p "data_directory" with
               | .vStr d => d
               | _ => "") s))
        else p
      | _ => p
  p

/-- `parameters.load_parameters(file_path, project_path)` on the
`file_path is None` branch (lines 59–60, 77): a copy of the defaults passed
through `set_directories`.  The nonexistent-file branch (lines 67–71)
returns the same value; the file-reading branch is external I/O. -/
def load_parameters_none (project_path : String) : List (String × PValue) :=
  set_directories _parameters project_path

/-- Conversion `create_builder_city` of `dtcc_builder/model.py`: the
external `_dtcc_builder.create_city` value, symbolically the city it was
built from. -/
inductive BCity where
  | fromCity (c : City)
  | simplified (c : BCity) (bounds : ℚ × ℚ × ℚ × ℚ) (min_building_distance min_vertex_distance : ℚ)

/-- Conversion `raster_to_builder_gridfield` of `dtcc_builder/model.py`:
the external `_dtcc_builder.create_gridfield` value, symbolically the raster
it was built from. -/
inductive BGridField where
  | fromRaster (r : Raster)

/-- The external `_dtcc_builder.BuildMesh2D` result, symbolically its call
arguments. -/
inductive BMesh2D where
  | build (c : BCity) (bounds : ℚ × ℚ × ℚ × ℚ) (resolution : ℚ)

/-- The external `_dtcc_builder` volume-mesh values of `build_volume_mesh`,
symbolically the calls that produced them: layering (`BuildVolumeMesh`),
smoothing (`smooth_volume_mesh`, with its fix-buildings flag), trimming
(`TrimVolumeMesh`). -/
inductive BVolumeMesh where
  | layered (m : BMesh2D) (domain_height resolution : ℚ)
  | smoothed (vm : BVolumeMesh) (c : BCity) (dem : BGridField) (top_height : ℚ)
      (fix_buildings : Bool) (max_iterations : ℕ) (relative_tolerance : ℚ)
  | trimmed (vm : BVolumeMesh) (m : BMesh2D) (c : BCity)

/-- The external `_dtcc_builder.ExtractBoundary3D` result. -/
inductive BSurface where
  | boundary (vm : BVolumeMesh)

/-- `numpy` mean of the raster's samples, `city.terrain.data.mean()`
(division by zero for an empty raster is numpy's nan, not reached in use). -/
def raster_mean (r : Raster) : ℚ :=
  r.data.sum / (r.data.length : ℚ)

/-- `builders.build_volume_mesh(city, parameters)` (lines 295–374): the
sequence of external builder calls, with each value recorded symbolically.
The `_debug` calls only save files when debugging is enabled and are not
modelled, and the final conversions back to the DTCC model
(`builder_volume_mesh_to_volume_mesh`, `builder_mesh_to_mesh`) are external
element-wise copies, so the builder values themselves are returned. -/
def build_volume_mesh (city : City) (p : Params) : BVolumeMesh × BSurface :=
  let builder_city := BCity.fromCity city
  let builder_dem := BGridField.fromRaster city.terrain
  let bounds := (city.bounds.xmin, city.bounds.ymin, city.bounds.xmax, city.bounds.ymax)
  let simple_city := BCity.simplified builder_city bounds
    p.min_building_distance p.min_vertex_distance
  let mesh := BMesh2D.build simple_city bounds p.mesh_resolution
  let volume_mesh := BVolumeMesh.layered mesh p.domain_height p.mesh_resolution
  let top_height := p.domain_height + raster_mean city.terrain
  let volume_mesh := BVolumeMesh.smoothed volume_mesh simple_city builder_dem
    top_height false p.smoothing_max_iterations p.smoothing_relative_tolerance
  let volume_mesh := BVolumeMesh.trimmed volume_mesh mesh simple_city
  let volume_mesh := BVolumeMesh.smoothed volume_mesh simple_city builder_dem
    top_height true p.smoothing_max_iterations p.smoothing_relative_tolerance
  let volume_mesh_boundary := BSurface.boundary volume_mesh
  (volume_mesh, volume_mesh_boundary)

/-- Default building used as the `getD` fallback in positional statements. -/
def default_building : Building :=
  { uuid := "", footprint := ⟨0, 0⟩, height := 0, ground_level := 0, roofpoints := [] }

/-- A constant terrain raster whose sampled value is 7 everywhere. -/
def terrain7 : Raster :=
  { data := [7], get_value := fun _ _ => 7 }

/-- Concrete parameters at the defaults of the spec's table (the smoothing
and DEM-window entries, absent from `_parameters`, take the spec's values). -/
def paramsDefault : Params :=
  { auto_domain := true
    domain_margin := 10
    x0 := 0, y0 := 0, x_min := 0, y_min := 0, x_max := 0, y_max := 0
    elevation_model_resolution := 1
    elevation_model_window_size := 3
    ground_margin := 1
    outlier_margin := 2
    roof_outlier_margin := 3 / 2
    outlier_neighbors := 5
    ransac_outlier_remover := true
    ransac_outlier_margin := 3
    ransac_iterations := 250
    min_building_height := 5 / 2
    roof_percentile := 9 / 10
    min_building_distance := 1
    min_vertex_distance := 1
    mesh_resolution := 10
    domain_height := 100
    smoothing_max_iterations := 5000
    smoothing_relative_tolerance := 1 / 1000 }

/-- An empty point cloud. -/
def pcEmpty : PointCloud :=
  { points := [], classification := [] }

/-- A city with a single building that has no roof points, a nonzero prior
ground level 5, and terrain value 7 at its footprint centroid. -/
def cityC1 : City :=
  { buildings :=
      [{ uuid := "b1", footprint := ⟨0, 0⟩, height := 0, ground_level := 5,
         roofpoints := [] }]
    terrain := terrain7
    bounds := ⟨0, 0, 10, 10⟩
    origin := (0, 0) }

/-- A city with a single building with nonzero prior ground level 5 and no
roof points yet (the building-point stage assigns them). -/
def cityC2 : City :=
  { buildings :=
      [{ uuid := "b2", footprint := ⟨0, 0⟩, height := 0, ground_level := 5,
         roofpoints := [] }]
    terrain := terrain7
    bounds := ⟨0, 0, 10, 10⟩
    origin := (0, 0) }

/-- An assignment result with one roof point and no ground samples. -/
def extract_oneroof : ExtractFn :=
  fun _ _ _ _ _ _ _ _ => [([⟨0, 0, 10⟩], [])]

/-- An assignment result with one roof point and one ground sample at z = 3. -/
def extract_ground3 : ExtractFn :=
  fun _ _ _ _ _ _ _ _ => [([⟨0, 0, 10⟩], [⟨0, 0, 3⟩])]

/-- A city with a single building with nonzero ground level 5 and a single
roof point at z = 10. -/
def cityC3 : City :=
  { buildings :=
      [{ uuid := "b3", footprint := ⟨0, 0⟩, height := 0, ground_level := 5,
         roofpoints := [⟨0, 0, 10⟩] }]
    terrain := terrain7
    bounds := ⟨0, 0, 10, 10⟩
    origin := (0, 0) }

/-- A point cloud with classifications 2, 1, 9 (ground, unclassified,
water). -/
def pcC6 : PointCloud :=
  { points := [⟨0, 0, 1⟩, ⟨1, 1, 2⟩, ⟨2, 2, 3⟩]
    classification := [2, 1, 9] }

/-- A concrete bounding box. -/
def bounds0 : Bounds :=
  ⟨0, 0, 10, 10⟩

/-- A second concrete bounding box. -/
def bounds1 : Bounds :=
  ⟨-5, -5, 30, 8⟩

/-- Parameters with a manually specified domain (`auto_domain = false`). -/
def pManual : Params :=
  { paramsDefault with
      auto_domain := false
      x0 := 1, y0 := 2, x_min := 3, y_min := 4, x_max := 5, y_max := 6 }

/-- Helper: `getD` through `map` at an index within bounds (the defaults on
the two sides are then irrelevant). -/
theorem getD_map_lt {α β : Type} (f : α → β) (l : List α) (i : ℕ)
    (hi : i < l.length) (d : β) (d0 : α) :
    (l.map f).getD i d = f (l.getD i d0) := by
  induction l generalizing i with
  | nil => simp at hi
  | cons a l ih =>
    cases i with
    | zero => simp
    | succ j =>
      simp only [List.map_cons, List.getD_cons_succ]
      exact ih j (by simpa using hi)

/-- Helper: the raise-to-minimum step of the height computation equals a
`max`. -/
theorem ite_lt_eq_max (x m : ℚ) : (if x < m then m else x) = max x m := by
  rcases lt_or_le x m with h | h
  · simp [h, max_eq_right h.le]
  · simp [not_lt.mpr h, max_eq_left h]

/-- Helper: `assign_buildings` preserves the number of buildings. -/
theorem assign_buildings_length (bs : List Building)
    (as : List (List Point3 × List Point3)) :
    (assign_buildings bs as).length = bs.length := by
  induction bs generalizing as with
  | nil => cases as <;> simp [assign_buildings]
  | cons b bs ih =>
    cases as with
    | nil => simp [assign_buildings]
    | cons a rest => simp [assign_buildings, ih]

/-- Helper: the building at index `i` after the zip loop: updated by
`assign_building` when `i` is within both lists, untouched otherwise. -/
theorem assign_buildings_getD (bs : List Building)
    (as : List (List Point3 × List Point3)) (i : ℕ) (d : Building) :
    (assign_buildings bs as).getD i d =
      if i < bs.length ∧ i < as.length then
        assign_building (bs.getD i d) (as.getD i ([], []))
      else bs.getD i d := by
  induction bs generalizing as i with
  | nil => cases as <;> simp [assign_buildings]
  | cons b bs ih =>
    cases as with
    | nil => simp [assign_buildings]
    | cons a rest =>
      cases i with
      | zero => simp [assign_buildings]
      | succ j =>
        simp only [assign_buildings, List.getD_cons_succ, List.length_cons,
          Nat.succ_lt_succ_iff]
        exact ih rest j

/-- Helper: `infer_height` on a building without roof points sets the height
to the minimum and changes nothing else. -/
theorem infer_height_no_roof (t : Raster) (p : Params) (b : Building)
    (hb : b.roofpoints = []) :
    infer_height t p b = { b with height := p.min_building_height } := by
  unfold infer_height
  rw [if_pos (by simp [hb])]

/-- Helper: `infer_height` on a building with roof points: the ground level
becomes the terrain value at the centroid exactly when it was 0, and the
height becomes the percentile-minus-ground-level value raised to the
minimum. -/
theorem infer_height_roof (t : Raster) (p : Params) (b : Building)
    (hb : b.roofpoints ≠ []) :
    infer_height t p b =
      (let gl := if b.ground_level = 0 then
          t.get_value b.footprint.centroidX b.footprint.centroidY
        else b.ground_level
       { b with
          ground_level := gl
          height := max (percentile (b.roofpoints.map Point3.z)
            (p.roof_percentile * 100) - gl) p.min_building_height }) := by
  unfold infer_height
  rw [if_neg (by simp [hb])]
  by_cases h0 : b.ground_level = 0 <;> simp [h0, ite_lt_eq_max]

/-- Helper: the roof points after `assign_building` are the assigned roof
points. -/
theorem assign_building_roofpoints (b : Building) (a : List Point3 × List Point3) :
    (assign_building b a).roofpoints = a.1 := by
  unfold assign_building; split <;> rfl

/-- Helper: the ground level after `assign_building`. -/
theorem assign_building_ground_level (b : Building) (a : List Point3 × List Point3) :
    (assign_building b a).ground_level =
      if 0 < a.2.length then percentile (a.2.map Point3.z) 50 else b.ground_level := by
  unfold assign_building; split <;> rfl

/-- Helper: `assign_building` does not change the footprint. -/
theorem assign_building_footprint (b : Building) (a : List Point3 × List Point3) :
    (assign_building b a).footprint = b.footprint := by
  unfold assign_building; split <;> rfl

/-- Helper: `assign_building` does not change the identifier. -/
theorem assign_building_uuid (b : Building) (a : List Point3 × List Point3) :
    (assign_building b a).uuid = b.uuid := by
  unfold assign_building; split <;> rfl

/-- Helper: `assign_building` does not change the height. -/
theorem assign_building_height (b : Building) (a : List Point3 × List Point3) :
    (assign_building b a).height = b.height := by
  unfold assign_building; split <;> rfl

/-- C1: the claim says that for a building with zero roof points,
`compute_building_heights` sets the height to `min_building_height` and the
ground level to the terrain value at the footprint centroid.  At a building
with no roof points, prior ground level 5 and terrain value 7 at the
centroid, the code leaves the ground level at 5 (the loop `continue`s before
the terrain lookup), refuting the ground-level half of the claim. -/
theorem C1_counterexample :
    (compute_building_heights cityC1 paramsDefault).buildings.map Building.ground_level = [5]
    ∧ cityC1.terrain.get_value 0 0 = 7 ∧ (5 : ℚ) ≠ 7 := by
  decide

/-- C1 (amended): for every building with zero roof points,
`compute_building_heights` sets its height to `min_building_height` and
leaves every other field — in particular `ground_level` — unchanged. -/
theorem C1_no_roof_points_height_min (city : City) (p : Params) (i : ℕ)
    (hi : i < city.buildings.length)
    (hroof : (city.buildings.getD i default_building).roofpoints = []) :
    (compute_building_heights city p).buildings.getD i default_building =
      { city.buildings.getD i default_building with height := p.min_building_height } := by
  unfold compute_building_heights
  rw [getD_map_lt _ _ _ hi _ default_building]
  exact infer_height_no_roof _ _ _ hroof

/-- Witness for C1's amended theorem at the concrete city `cityC1`. -/
theorem C1_witness :
    (cityC1.buildings.getD 0 default_building).roofpoints = [] ∧
    (compute_building_heights cityC1 paramsDefault).buildings.getD 0 default_building =
      { cityC1.buildings.getD 0 default_building with
          height := paramsDefault.min_building_height } :=
  ⟨by decide, C1_no_roof_points_height_min cityC1 paramsDefault 0 (by decide) (by decide)⟩

/-- C2: the claim says that for a building with at least one roof point,
the pipeline sets `ground_level` to the median ground-sample z when ground
samples exist and to the terrain value at the centroid otherwise, regardless
of the prior ground level.  At a building with one assigned roof point, no
ground samples, prior ground level 5 and terrain value 7 at the centroid,
the code keeps the prior ground level 5 (the terrain fallback only fires
when the ground level is 0), refuting the claim. -/
theorem C2_counterexample :
    (compute_building_heights
        (compute_building_points extract_oneroof cityC2 pcEmpty paramsDefault)
        paramsDefault).buildings.map Building.ground_level = [5]
    ∧ cityC2.terrain.get_value 0 0 = 7 ∧ (5 : ℚ) ≠ 7 := by
  decide

/-- C2 (amended): for a building with at least one assigned roof point, the
pipeline (building-point assignment followed by height inference) sets its
ground level to the median of the assigned ground-sample z-values when
ground samples exist and to the prior ground level otherwise — and, when
that value is 0, replaces it by the terrain value sampled at the footprint
centroid. -/
theorem C2_pipeline_ground_level (extract : ExtractFn) (city : City)
    (pc : PointCloud) (p : Params) (i : ℕ)
    (hi : i < city.buildings.length)
    (ha : i < (assigned_points extract city pc p).length)
    (hroof : ((assigned_points extract city pc p).getD i ([], [])).1 ≠ []) :
    ((compute_building_heights (compute_building_points extract city pc p)
        p).buildings.getD i default_building).ground_level =
      (let a := (assigned_points extract city pc p).getD i ([], [])
       let b := city.buildings.getD i default_building
       let gl := if 0 < a.2.length then percentile (a.2.map Point3.z) 50
         else b.ground_level
       if gl = 0 then
         city.terrain.get_value b.footprint.centroidX b.footprint.centroidY
       else gl) := by
  have hlen : i < (assign_buildings city.buildings
      (assigned_points extract city pc p)).length := by
    rw [assign_buildings_length]; exact hi
  have hb : (assign_building (city.buildings.getD i default_building)
      ((assigned_points extract city pc p).getD i ([], []))).roofpoints ≠ [] := by
    rw [assign_building_roofpoints]; exact hroof
  unfold compute_building_heights compute_building_points
  dsimp only
  rw [getD_map_lt _ _ _ hlen _ default_building]
  rw [assign_buildings_getD, if_pos ⟨hi, ha⟩]
  rw [infer_height_roof _ _ _ hb]
  dsimp only
  rw [assign_building_ground_level, assign_building_footprint]

/-- Witness for C2's amended theorem: one roof point, one ground sample at
z = 3 and prior ground level 5 give ground level 3. -/
theorem C2_witness :
    ((compute_building_heights
        (compute_building_points extract_ground3 cityC2 pcEmpty paramsDefault)
        paramsDefault).buildings.getD 0 default_building).ground_level = 3 :=
  (C2_pipeline_ground_level extract_ground3 cityC2 pcEmpty paramsDefault 0
    (by decide) (by decide) (by decide)).trans (by
      norm_num [assigned_points, extract_ground3, cityC2, default_building,
        percentile, sortQ, insertSorted]
      rfl)

/-- Helper: the floor of the rational 0. -/
theorem rat_floor_zero : Rat.floor 0 = 0 := rfl

/-- C3: for every building with at least one roof point,
`compute_building_heights` sets its height to
`max(roof_top − ground_level, min_building_height)`, where `roof_top` is the
`roof_percentile` percentile of the roof z-values and `ground_level` the
building's (possibly terrain-filled) ground level after this stage; and
every building's height after this stage is at least
`min_building_height`. -/
theorem C3_height_formula (city : City) (p : Params) (i : ℕ)
    (hi : i < city.buildings.length)
    (hroof : (city.buildings.getD i default_building).roofpoints ≠ []) :
    (((compute_building_heights city p).buildings.getD i default_building).height =
      max (percentile ((city.buildings.getD i default_building).roofpoints.map Point3.z)
          (p.roof_percentile * 100) -
        ((compute_building_heights city p).buildings.getD i default_building).ground_level)
        p.min_building_height)
    ∧ ∀ b ∈ (compute_building_heights city p).buildings,
        p.min_building_height ≤ b.height := by
  constructor
  · unfold compute_building_heights
    dsimp only
    rw [getD_map_lt _ _ _ hi _ default_building, infer_height_roof _ _ _ hroof]
  · intro b hb
    unfold compute_building_heights at hb
    dsimp only at hb
    rcases List.mem_map.mp hb with ⟨b0, _, rfl⟩
    by_cases h : b0.roofpoints = []
    · rw [infer_height_no_roof _ _ _ h]
    · rw [infer_height_roof _ _ _ h]
      exact le_max_right _ _

/-- Witness for C3 at the concrete city `cityC3`: roof point at z = 10 and
ground level 5 give height 10 − 5 = 5 (above the minimum 2.5). -/
theorem C3_witness :
    ((compute_building_heights cityC3 paramsDefault).buildings.getD 0
      default_building).height = 5 := by
  have h := (C3_height_formula cityC3 paramsDefault 0 (by decide) (by decide)).1
  rw [h]
  norm_num [compute_building_heights, infer_height, cityC3, default_building, terrain7,
    paramsDefault, percentile, sortQ, insertSorted, ite_lt_eq_max, rat_floor_zero, max_def]

/-- C4: the claim says `load_parameters` with no file returns a mapping with
every recognized key of the spec's table at its stated default — including
`naive_vegetation_filter = true` and `smoothing_relative_tolerance = 1e-3`.
The defaults dictionary holds `outlier_margin`, `roof_percentile`,
`min_building_size`, `ransac_iterations`, `domain_height` and
`mesh_resolution` at the stated defaults, but has no
`smoothing_relative_tolerance`, `smoothing_max_iterations` or
`elevation_model_window_size` entry at all, and the vegetation-filter key is
spelled `naive_vegitation_filter` — even though
`builders.build_volume_mesh` and `builders.build_dem` read the missing keys
from the parameter mapping. -/
theorem C4_load_parameters_defaults :
    (load_parameters_none ".").lookup "smoothing_relative_tolerance" = none ∧
    (load_parameters_none ".").lookup "smoothing_max_iterations" = none ∧
    (load_parameters_none ".").lookup "elevation_model_window_size" = none ∧
    (load_parameters_none ".").lookup "naive_vegetation_filter" = none ∧
    (load_parameters_none ".").lookup "naive_vegitation_filter" = some (.vBool true) ∧
    (load_parameters_none ".").lookup "outlier_margin" = some (.vFloat 2) ∧
    (load_parameters_none ".").lookup "roof_percentile" = some (.vFloat (9 / 10)) ∧
    (load_parameters_none ".").lookup "min_building_size" = some (.vFloat 15) ∧
    (load_parameters_none ".").lookup "ransac_iterations" = some (.vInt 250) ∧
    (load_parameters_none ".").lookup "domain_height" = some (.vFloat 100) ∧
    (load_parameters_none ".").lookup "mesh_resolution" = some (.vFloat 10) :=
  ⟨rfl, rfl, rfl, rfl, rfl, rfl, rfl, rfl, rfl, rfl, rfl⟩

/-- C5: `build_volume_mesh` performs its stages in exactly this order —
ground 2D mesh from the simplified city, layering into a volume mesh,
smoothing with building constraints disabled, trimming, smoothing with
building constraints enabled, boundary extraction — for every city and every
parameter set. -/
theorem C5_stage_order (city : City) (p : Params) :
    build_volume_mesh city p =
      (let bounds := (city.bounds.xmin, city.bounds.ymin, city.bounds.xmax, city.bounds.ymax)
       let simple_city := BCity.simplified (BCity.fromCity city) bounds
         p.min_building_distance p.min_vertex_distance
       let ground_mesh := BMesh2D.build simple_city bounds p.mesh_resolution
       let top_height := p.domain_height + raster_mean city.terrain
       let final := BVolumeMesh.smoothed
         (BVolumeMesh.trimmed
           (BVolumeMesh.smoothed
             (BVolumeMesh.layered ground_mesh p.domain_height p.mesh_resolution)
             simple_city (BGridField.fromRaster city.terrain) top_height false
             p.smoothing_max_iterations p.smoothing_relative_tolerance)
           ground_mesh simple_city)
         simple_city (BGridField.fromRaster city.terrain) top_height true
         p.smoothing_max_iterations p.smoothing_relative_tolerance
       (final, BSurface.boundary final)) :=
  rfl

/-- C6: `build_dem` builds the DEM from exactly the points classified 2 or 9
when the classification array matches the points in length and class 2 is
present, and from all points otherwise (no classification, mismatched
length, or no class-2 points). -/
theorem C6_ground_point_selection (pc : PointCloud) (bounds : Bounds) (p : Params) :
    ((pc.classification.length = pc.points.length ∧ 2 ∈ pc.classification) →
      (build_dem pc bounds p).ground_points =
        ((pc.points.zip pc.classification).filter
          (fun q => q.2 = 2 ∨ q.2 = 9)).map Prod.fst)
    ∧ (¬ (pc.classification.length = pc.points.length ∧ 2 ∈ pc.classification) →
      (build_dem pc bounds p).ground_points = pc.points) := by
  unfold build_dem build_dem_ground_points used_classifications
  dsimp only
  constructor
  · intro h
    rw [if_pos ⟨h.1, List.mem_dedup.mpr h.2⟩]
  · intro h
    rw [if_neg]
    intro hc
    exact h ⟨hc.1, List.mem_dedup.mp hc.2⟩

/-- Witness for C6 at the concrete cloud `pcC6` (classes 2, 1, 9): the
points with classes 2 and 9 are selected. -/
theorem C6_witness :
    (pcC6.classification.length = pcC6.points.length ∧ 2 ∈ pcC6.classification) ∧
    (build_dem pcC6 bounds0 paramsDefault).ground_points = [⟨0, 0, 1⟩, ⟨2, 2, 3⟩] :=
  ⟨by decide,
   ((C6_ground_point_selection pcC6 bounds0 paramsDefault).1 (by decide)).trans (by decide)⟩

/-- C7: `compute_domain_bounds` uses the manual AABB iff `auto_domain` is
false — returning origin `(x0, y0)` and bounds
`(x0+x_min, y0+y_min, x0+x_max, y0+y_max)` independently of the footprint
and point-cloud bounds — and otherwise returns the intersection of the
margin-grown footprint bounds with the point-cloud bounds, with the
intersection's lower-left corner as origin. -/
theorem C7_domain_bounds (footprint_raw pointcloud_bounds : Bounds) (p : Params) :
    (p.auto_domain = false →
      (compute_domain_bounds footprint_raw pointcloud_bounds p).1 =
        ((p.x0, p.y0),
         { xmin := p.x0 + p.x_min, ymin := p.y0 + p.y_min,
           xmax := p.x0 + p.x_max, ymax := p.y0 + p.y_max }))
    ∧ (p.auto_domain = true →
      (compute_domain_bounds footprint_raw pointcloud_bounds p).1 =
        (let bb := bounds_intersect (building_bounds footprint_raw p.domain_margin)
          pointcloud_bounds
         ((bb.xmin, bb.ymin), bb))) := by
  constructor <;> intro h <;> simp [compute_domain_bounds, h]

/-- Witness for C7: the manual branch at `pManual` and the automatic branch
at the default parameters, both on the concrete boxes `bounds0`, `bounds1`. -/
theorem C7_witness :
    (compute_domain_bounds bounds0 bounds1 pManual).1 =
      ((1, 2), ⟨4, 6, 6, 8⟩) ∧
    (compute_domain_bounds bounds0 bounds1 paramsDefault).1 =
      ((-5, -5), ⟨-5, -5, 20, 8⟩) :=
  ⟨((C7_domain_bounds bounds0 bounds1 pManual).1 rfl).trans
    (by norm_num [pManual, paramsDefault]),
   ((C7_domain_bounds bounds0 bounds1 paramsDefault).2 rfl).trans
    (by norm_num [building_bounds, bounds_intersect, bounds0, bounds1, paramsDefault])⟩

/-- C8: the claim says `build_city` and `compute_building_points` do not
modify the fields of the City passed in.  `compute_building_points` returns
the city object with the building's ground level overwritten by the
ground-sample median (5 becomes 3) and its roofpoints overwritten by the
assigned roof points, refuting the claim (the function mutates the input in
place and returns the same object). -/
theorem C8_counterexample :
    ((compute_building_points extract_ground3 cityC2 pcEmpty paramsDefault).buildings.map
        Building.ground_level = [3]) ∧
    cityC2.buildings.map Building.ground_level = [5] ∧
    ((3 : ℚ) ≠ 5) ∧
    (compute_building_points extract_ground3 cityC2 pcEmpty paramsDefault).buildings.map
        Building.roofpoints ≠ cityC2.buildings.map Building.roofpoints := by
  refine ⟨?_, by decide, by norm_num, by decide⟩
  norm_num [compute_building_points, assigned_points, extract_ground3, cityC2,
    assign_buildings, assign_building, percentile, sortQ, insertSorted]
  rfl

/-- C8 (amended): the pipeline stages mutate the input City rather than
leaving it unchanged — `build_city` installs the computed DEM as the terrain
of the City object it returns (the mutated input), and
`compute_building_points` mutates only the per-building `roofpoints` and
`ground_level` of the City it is passed (returning that same object): the
terrain, bounds, origin, number of buildings, and each building's
identifier, footprint and height are left unchanged by it. -/
theorem C8_city_mutation_frame (remove_global_outliers : PointCloud → ℚ → PointCloud)
    (dem_raster : DemResult → Raster) (extract : ExtractFn) (city : City)
    (pc : PointCloud) (bounds : Bounds) (p : Params) :
    ((build_city remove_global_outliers dem_raster extract city pc bounds p).terrain =
      dem_raster (build_dem (remove_global_outliers pc p.outlier_margin) bounds p)) ∧
    (compute_building_points extract city pc p).terrain = city.terrain ∧
    (compute_building_points extract city pc p).bounds = city.bounds ∧
    (compute_building_points extract city pc p).origin = city.origin ∧
    (compute_building_points extract city pc p).buildings.length =
      city.buildings.length ∧
    ∀ i d, (((compute_building_points extract city pc p).buildings.getD i d).uuid =
        (city.buildings.getD i d).uuid ∧
      ((compute_building_points extract city pc p).buildings.getD i d).footprint =
        (city.buildings.getD i d).footprint ∧
      ((compute_building_points extract city pc p).buildings.getD i d).height =
        (city.buildings.getD i d).height) := by
  refine ⟨rfl, rfl, rfl, rfl, assign_buildings_length _ _, ?_⟩
  intro i d
  unfold compute_building_points
  dsimp only
  rw [assign_buildings_getD]
  split
  · exact ⟨assign_building_uuid _ _, assign_building_footprint _ _,
      assign_building_height _ _⟩
  · exact ⟨rfl, rfl, rfl⟩

/-- C9: `write_surface` with `y_up` unspecified passes `y_up = true` to the
writer exactly for the formats "obj" and "gltf" (false for "stl"), returns
the unsupported marker without invoking the writer for any other format, and
rewrites "gltf" to "gltf2" before the writer call. -/
theorem C9_write_surface (s fn format : String) :
    write_surface s fn "obj" none = .written s fn "obj" true ∧
    write_surface s fn "gltf" none = .written s fn "gltf2" true ∧
    write_surface s fn "stl" none = .written s fn "stl" false ∧
    (format ∉ (["obj", "stl", "gltf"] : List String) →
      write_surface s fn format none = .notSupported) := by
  refine ⟨rfl, rfl, rfl, fun h => ?_⟩
  unfold write_surface
  dsimp only
  rw [if_pos h]

/-- Witness for C9 at the unsupported format "vtk". -/
theorem C9_witness :
    ("vtk" ∉ (["obj", "stl", "gltf"] : List String)) ∧
    write_surface "srf" "out" "vtk" none = .notSupported :=
  ⟨by decide, (C9_write_surface "srf" "out" "vtk").2.2.2 (by decide)⟩

/-- C10: `getLasBounds` returns `None` for every path that is not a
directory — for every possible LAS reader, so the reader is not consulted —
and queries the reader exactly for directory paths. -/
theorem C10_las_bounds (isdir : String → Bool) (lasBounds : String → Bounds)
    (path : String) :
    (isdir path = false → getLasBounds isdir lasBounds path = none) ∧
    (isdir path = true → getLasBounds isdir lasBounds path = some (lasBounds path)) := by
  constructor <;> intro h <;> simp [getLasBounds, h]

/-- Witness for C10 at a non-directory path. -/
theorem C10_witness :
    ((fun s => decide (s = "lasdir")) "pointcloud.las" = false) ∧
    getLasBounds (fun s => decide (s = "lasdir")) (fun _ => bounds0)
      "pointcloud.las" = none :=
  ⟨by decide,
   (C10_las_bounds (fun s => decide (s = "lasdir")) (fun _ => bounds0)
     "pointcloud.las").1 (by decide)⟩
